import Mathlib

set_option maxRecDepth 40000

/-!
# Verification of the transcript-extractor pipeline

A shallow embedding of `transcript_extractor/extractor.py`.  Python floats are
modelled as rationals (every float value is a rational number and the arithmetic
performed by the program on them is exact on the values that occur), remote
providers (transcript API, pytube scraping, structured video API, translator)
are opaque parameters supplying the values or exceptions their calls produce,
and functions that may raise return `Except`.
-/

/-- Python `int(q)`: truncation toward zero. -/
def pyInt (q : ℚ) : ℤ := if 0 ≤ q then q.floor else -((-q).floor)

/-- Python float floor-division `x // n` by a positive integer constant (its
value is the integer `⌊x / n⌋`; the source wraps the result in `int(...)`,
which is the identity on that integer value).  Computed on num/den so that it
kernel-reduces; `pyFloorDiv_eq_floor` certifies the value. -/
def pyFloorDiv (x : ℚ) (n : ℕ) : ℤ := x.num / ((x.den * n : ℕ) : ℤ)

/-- Python float modulo `x % n` for a positive integer constant `n`:
`x - n * (x // n)`, written as one fraction so that it kernel-reduces;
`pyMod_eq` certifies the value. -/
def pyMod (x : ℚ) (n : ℕ) : ℚ :=
  Rat.divInt (x.num - ((x.den * n : ℕ) : ℤ) * pyFloorDiv x n) (x.den : ℤ)

/-- Python `f"{n:02d}"` for the integer values occurring here. -/
def pad2 (n : ℤ) : String := if 0 ≤ n ∧ n < 10 then "0" ++ toString n else toString n

/-- `format_timestamp` from the source: `HH:MM:SS` with zero-padded fields.
`hours = int(seconds // 3600)`, `minutes = int((seconds % 3600) // 60)`,
`secs = int(seconds % 60)`. -/
def format_timestamp (seconds : ℚ) : String :=
  let hours : ℤ := pyFloorDiv seconds 3600
  let minutes : ℤ := pyFloorDiv (pyMod seconds 3600) 60
  let secs : ℤ := pyInt (pyMod seconds 60)
  pad2 hours ++ ":" ++ pad2 minutes ++ ":" ++ pad2 secs

/-- The clock decomposition of a whole number of seconds: what
`format_timestamp` computes after truncation. -/
def intClock (m : ℤ) : String :=
  pad2 (m / 3600) ++ ":" ++ pad2 (m % 3600 / 60) ++ ":" ++ pad2 (m % 60)

/-!
## Reference resolver (`extract_video_id`)

The source applies Python `re.search` with the raw pattern
`(?:v=|\/)([0-9A-Za-z_-]{11})(?:\?|&|\/|$)` and returns the captured group, or
the input unchanged when there is no match.  `re.search` scans start positions
left to right; the embedding below mirrors that scan.
-/

/-- The character class `[0-9A-Za-z_-]` of the source pattern (ASCII only, as
in Python `re`). -/
def isIdChar (c : Char) : Bool := c.isAlphanum || c = '_' || c = '-'

/-- The boundary group `(?:\?|&|\/|$)` after the captured group.  Python `$`
(without `re.MULTILINE`) matches at the end of the string and also just before
a newline that ends the string. -/
def boundaryOk : List Char → Bool
  | [] => true
  | [c] => c = '?' || c = '&' || c = '/' || c = '\n'
  | c :: _ :: _ => c = '?' || c = '&' || c = '/'

/-- The boundary as described by the claim text: `?`, `&`, `/`, or
end-of-string only (no allowance for a newline ending the string). -/
def claimBoundary : List Char → Bool
  | [] => true
  | c :: _ => c = '?' || c = '&' || c = '/'

/-- After the prefix alternation has consumed its characters: exactly 11
characters of the class, then the boundary. -/
def tryBodyWith (bnd : List Char → Bool) (l : List Char) : Option (List Char) :=
  if (l.take 11).length == 11 && (l.take 11).all isIdChar && bnd (l.drop 11) then
    some (l.take 11)
  else none

/-- One attempt of the pattern at a fixed start position: the alternation
`(?:v=|\/)`, then the body. -/
def tryAtWith (bnd : List Char → Bool) (l : List Char) : Option (List Char) :=
  if ['v', '='].isPrefixOf l then tryBodyWith bnd (l.drop 2)
  else if ['/'].isPrefixOf l then tryBodyWith bnd (l.drop 1)
  else none

/-- `re.search`: try every start position from the left, returning the first
capture.  (The attempt at the empty suffix never succeeds, so stopping at the
empty list is equivalent to also trying it.) -/
def findMatchWith (bnd : List Char → Bool) : List Char → Option (List Char)
  | [] => none
  | c :: rest =>
    match tryAtWith bnd (c :: rest) with
    | some g => some g
    | none => findMatchWith bnd rest

/-- `extract_video_id` from the source. -/
def extract_video_id (input_str : String) : String :=
  match findMatchWith boundaryOk input_str.data with
  | some g => String.mk g
  | none => input_str

/-- Declarative reading of a pattern match at a fixed position: an 11-character
token of the class, preceded by `v=` or `/`, followed by the boundary. -/
def declMatchAt (bnd : List Char → Bool) (l g : List Char) : Prop :=
  g.length = 11 ∧ (∀ c ∈ g, isIdChar c = true) ∧
  ((∃ rest, l = 'v' :: '=' :: (g ++ rest) ∧ bnd rest = true) ∨
   (∃ rest, l = '/' :: (g ++ rest) ∧ bnd rest = true))

/-!
## Report writer (`sanitize_filename`, `save_to_markdown`)

`save_to_markdown` writes to `output/<file_name>` and returns `file_name`; the
embedding returns the pair (file name, file content).  The wall-clock string
`now.strftime("%Y%m%d_%H%M%S")` is a parameter.
-/

/-- The characters removed by `re.sub` in `sanitize_filename`. -/
def forbiddenChar (c : Char) : Bool :=
  c = '\\' || c = '/' || c = '*' || c = '?' || c = ':' || c = '\"' ||
    c = '<' || c = '>' || c = '|'

/-- `re.sub` with a single-character class and empty replacement: scan left to
right, dropping every occurrence. -/
def removeForbidden : List Char → List Char
  | [] => []
  | c :: rest => if forbiddenChar c then removeForbidden rest else c :: removeForbidden rest

/-- `sanitize_filename` from the source. -/
def sanitize_filename (filename : String) : String := String.mk (removeForbidden filename.data)

/-- Video metadata record: the dict `{title, channel, url}` of the source. -/
structure VideoMetadata where
  title : String
  channel : String
  url : String
deriving DecidableEq

/-- The canonical watch URL, built locally from the identifier (the source
inlines this f-string at each use site). -/
def watchUrl (video_id : String) : String := "https://www.youtube.com/watch?v=" ++ video_id

/-- `save_to_markdown` from the source: the returned pair is (file name,
content written), the content being the concatenation of the `f.write` calls
in order. -/
def save_to_markdown (time_str : String) (metadata : VideoMetadata) (transcript : String) :
    String × String :=
  let file_name := time_str ++ "_" ++ sanitize_filename metadata.title ++ ".md"
  let content :=
    ("# " ++ metadata.title ++ "\n\n") ++
    ("**채널명:** " ++ metadata.channel ++ "\n\n") ++
    ("**URL:** " ++ metadata.url ++ "\n\n") ++
    "---\n\n" ++
    "## 트랜스크립트\n\n" ++
    transcript
  (file_name, content)

/-- Join a list of lines with newlines. -/
def joinLines : List String → String
  | [] => ""
  | [x] => x
  | x :: y :: xs => x ++ "\n" ++ joinLines (y :: xs)

/-- Modelled from the spec's layout description: level-1 heading with title;
blank line; bold channel label; blank line; bold URL label; blank line;
horizontal rule; blank line; level-2 heading; blank line; body. -/
def specDocument (metadata : VideoMetadata) (body : String) : String :=
  joinLines ["# " ++ metadata.title, "", "**채널명:** " ++ metadata.channel, "",
    "**URL:** " ++ metadata.url, "", "---", "", "## 트랜스크립트", "", body]

/-!
## Metadata fallback chain (`get_video_metadata`)

The pytube call is a parameter producing either an exception or a
(title, channel) pair; a `None` title and an empty title are both falsy in the
source's `if metadata["title"]` check, and the empty string models both.  The
structured API call is a parameter producing either an exception or the
response's item list.  `apiConsulted` records whether the structured API
provider was consulted at all.
-/

/-- One item of the structured API response. -/
structure ApiItem where
  title : String
  channelTitle : String
deriving DecidableEq

/-- Result of the metadata fetch, together with whether the structured API
provider was consulted. -/
structure MetaFetch where
  result : Option VideoMetadata
  apiConsulted : Bool
deriving DecidableEq

/-- The second half of `get_video_metadata`: `os.getenv("YOUTUBE_API_KEY")`
then the pyyoutube call guarded by `if response.items`. -/
def apiFallback (video_id : String) (api_key : Option String)
    (secondary : Except Unit (List ApiItem)) : MetaFetch :=
  match api_key with
  | none => ⟨none, false⟩
  | some _ =>
    match secondary with
    | Except.error _ => ⟨none, true⟩
    | Except.ok [] => ⟨none, true⟩
    | Except.ok (item :: _) => ⟨some ⟨item.title, item.channelTitle, watchUrl video_id⟩, true⟩

/-- `get_video_metadata` from the source. -/
def get_video_metadata (video_id : String) (primary : Except Unit (String × String))
    (api_key : Option String) (secondary : Except Unit (List ApiItem)) : MetaFetch :=
  match primary with
  | Except.ok (t, c) =>
    if t = "" then apiFallback video_id api_key secondary
    else ⟨some ⟨t, c, watchUrl video_id⟩, false⟩
  | Except.error _ => apiFallback video_id api_key secondary

/-- The pytube attempt failed: exception, or falsy title. -/
def primaryFailed : Except Unit (String × String) → Bool
  | Except.error _ => true
  | Except.ok (t, _) => t = ""

/-- The structured API attempt cannot supply metadata: no credential,
exception, or empty result set. -/
def secondaryUnavailable (api_key : Option String) (secondary : Except Unit (List ApiItem)) :
    Bool :=
  match api_key with
  | none => true
  | some _ =>
    match secondary with
    | Except.error _ => true
    | Except.ok items => items.isEmpty

/-!
## Transcript assembler (`get_transcript`)

The transcript provider is a parameter: the list returned by
`YouTubeTranscriptApi.get_transcript`, or the exception it raises (which the
source does not catch).  The translator is a parameter mapping the index of
the call (the source calls it once per entry, in order) and the entry text to
the translated text or an exception (which the source catches per entry).
-/

instance {ε α : Type} [DecidableEq ε] [DecidableEq α] : DecidableEq (Except ε α) := fun x y =>
  match x, y with
  | Except.ok a, Except.ok b =>
    if h : a = b then isTrue (by rw [h]) else isFalse (fun hh => h (Except.ok.inj hh))
  | Except.error a, Except.error b =>
    if h : a = b then isTrue (by rw [h]) else isFalse (fun hh => h (Except.error.inj hh))
  | Except.ok _, Except.error _ => isFalse (fun hh => Except.noConfusion hh)
  | Except.error _, Except.ok _ => isFalse (fun hh => Except.noConfusion hh)

/-- One entry of the provider's transcript list: `{"start": ..., "text": ...}`. -/
structure TranscriptEntry where
  start : ℚ
  text : String
deriving DecidableEq

/-- The clickable timestamp built for an entry:
`[HH:MM:SS](base_url&t=<int-seconds>s)`. -/
def timestampLink (base_url : String) (entry : TranscriptEntry) : String :=
  "[" ++ format_timestamp entry.start ++ "](" ++ base_url ++ "&t=" ++
    toString (pyInt entry.start) ++ "s)"

/-- The line(s) the loop body of `get_transcript` appends for one entry. -/
def entryLines (base_url : String) (translate : Bool) (tr : String → Except Unit String)
    (entry : TranscriptEntry) : List String :=
  let timestamp_link := timestampLink base_url entry
  let firstLine := timestamp_link ++ " " ++ entry.text
  if translate then
    match tr entry.text with
    | Except.ok translated => [firstLine, timestamp_link ++ " (한글 번역) " ++ translated]
    | Except.error _ => [firstLine, timestamp_link ++ " (한글 번역) 오류 발생"]
  else [firstLine]

/-- The text after the translation tag on the second line of an entry: the
translated text, or the fixed error placeholder when the translator raised. -/
def translationTail : Except Unit String → String
  | Except.ok translated => translated
  | Except.error _ => "오류 발생"

/-- The `lines` list built by the loop of `get_transcript`; the counter is the
index of the next translator call. -/
def transcriptLines (base_url : String) (translate : Bool)
    (translator : ℕ → String → Except Unit String) : ℕ → List TranscriptEntry → List String
  | _, [] => []
  | n, e :: es =>
    entryLines base_url translate (translator n) e ++
      transcriptLines base_url translate translator (n + 1) es

/-- `get_transcript` from the source: propagates a provider exception, and on
success returns the newline-joined lines. -/
def get_transcript (provider : Except String (List TranscriptEntry)) (video_id : String)
    (translate : Bool) (translator : ℕ → String → Except Unit String) : Except String String :=
  match provider with
  | Except.error err => Except.error err
  | Except.ok transcript_list =>
    Except.ok (String.intercalate "\n"
      (transcriptLines (watchUrl video_id) translate translator 0 transcript_list))

/-!
## Pipeline driver (`main`)

`main` reads the raw reference and the translate flag from `sys.argv` (or a
prompt); both are parameters here.  The embedding records what was written
(file name and content of the single `save_to_markdown` call, if any) and what
the function returns to its caller — the source's `main` has no `return`
statement after a successful write, so it always returns `None`.
-/

/-- What a run of `main` writes and what it returns. -/
structure RunResult where
  written : Option (String × String)
  returned : Option String
deriving DecidableEq

/-- The synthetic default metadata substituted when the fetch returns `None`. -/
def defaultMetadata (video_id : String) : VideoMetadata :=
  ⟨video_id, "Unknown", watchUrl video_id⟩

/-- `main` from the source (after argument intake; the name `main` is reserved
in Lean, hence the `py` prefix).  The source's local variables `video_id` and
`metadata` are inlined; an uncaught provider exception in `get_transcript`
propagates as `Except.error`. -/
def pyMain (raw_input_value : String) (translate : Bool)
    (primary : Except Unit (String × String)) (api_key : Option String)
    (secondary : Except Unit (List ApiItem)) (provider : Except String (List TranscriptEntry))
    (translator : ℕ → String → Except Unit String) (time_str : String) :
    Except String RunResult :=
  if raw_input_value = "" then Except.ok ⟨none, none⟩
  else
    match get_transcript provider (extract_video_id raw_input_value) translate translator with
    | Except.error err => Except.error err
    | Except.ok transcript =>
      if transcript = "" then Except.ok ⟨none, none⟩
      else Except.ok ⟨some (save_to_markdown time_str
        (((get_video_metadata (extract_video_id raw_input_value) primary api_key
          secondary).result).getD (defaultMetadata (extract_video_id raw_input_value)))
        transcript), none⟩

/-!
## Concrete fixtures used by witnesses and counterexamples
-/

/-- A small concrete transcript. -/
def sampleEntries : List TranscriptEntry := [⟨0, "hello"⟩, ⟨mkRat 7 2, "world"⟩]

/-- A translator that always succeeds. -/
def okTranslator : ℕ → String → Except Unit String := fun _ _ => Except.ok "좋아"

/-- A translator that always raises. -/
def errTranslator : ℕ → String → Except Unit String := fun _ _ => Except.error ()

/-- A translator that raises exactly on its second call. -/
def failSecondTranslator : ℕ → String → Except Unit String :=
  fun n _ => if n = 1 then Except.error () else Except.ok "좋아"

/-- The file written by a successful sample run with scraped metadata. -/
def sampleSaved : String × String :=
  ("20260101_000000_My Video.md",
   "# My Video\n\n**채널명:** My Channel\n\n**URL:** https://www.youtube.com/watch?v=dQw4w9WgXcQ\n\n---\n\n## 트랜스크립트\n\n[00:00:00](https://www.youtube.com/watch?v=dQw4w9WgXcQ&t=0s) hello\n[00:00:03](https://www.youtube.com/watch?v=dQw4w9WgXcQ&t=3s) world")

/-- The file written by a successful sample run with the synthetic default
metadata. -/
def sampleDefaultSaved : String × String :=
  ("20260101_000000_dQw4w9WgXcQ.md",
   "# dQw4w9WgXcQ\n\n**채널명:** Unknown\n\n**URL:** https://www.youtube.com/watch?v=dQw4w9WgXcQ\n\n---\n\n## 트랜스크립트\n\n[00:00:00](https://www.youtube.com/watch?v=dQw4w9WgXcQ&t=0s) hello\n[00:00:03](https://www.youtube.com/watch?v=dQw4w9WgXcQ&t=3s) world")

/-!
## Arithmetic bridge lemmas for the timestamp formatter
-/

lemma ratFloor_eq_floor (q : ℚ) : q.floor = ⌊q⌋ := by
  rw [Rat.floor_def, Rat.floor_def']

lemma pyInt_eq_floor (q : ℚ) (h : 0 ≤ q) : pyInt q = ⌊q⌋ := by
  rw [pyInt, if_pos h, ratFloor_eq_floor]

lemma floor_div_natCast (q : ℚ) (n : ℕ) (hn : 0 < n) : ⌊q / (n : ℚ)⌋ = ⌊q⌋ / (n : ℤ) := by
  have hn0 : (0 : ℚ) < (n : ℚ) := by exact_mod_cast hn
  have hnz : ((n : ℤ)) ≠ 0 := by exact_mod_cast hn.ne'
  have hnzp : (0 : ℤ) < (n : ℤ) := by exact_mod_cast hn
  set m := ⌊q⌋ with hm
  have h1 : (m : ℚ) ≤ q := Int.floor_le q
  have h2 : q < m + 1 := Int.lt_floor_add_one q
  have h3 : m % (n : ℤ) = m - (n : ℤ) * (m / (n : ℤ)) := Int.emod_def m (n : ℤ)
  have h4 : 0 ≤ m % (n : ℤ) := Int.emod_nonneg m hnz
  have h5 : m % (n : ℤ) < (n : ℤ) := Int.emod_lt_of_pos m hnzp
  rw [Int.floor_eq_iff]
  constructor
  · rw [le_div_iff₀ hn0]
    calc ((m / (n : ℤ) : ℤ) : ℚ) * (n : ℚ) = (((n : ℤ) * (m / (n : ℤ)) : ℤ) : ℚ) := by
          push_cast; ring
    _ ≤ (m : ℚ) := by exact_mod_cast (by linarith : (n : ℤ) * (m / (n : ℤ)) ≤ m)
    _ ≤ q := h1
  · rw [div_lt_iff₀ hn0]
    calc q < (m : ℚ) + 1 := h2
    _ ≤ (((n : ℤ) * (m / (n : ℤ)) + n : ℤ) : ℚ) := by
          exact_mod_cast (by linarith : m + 1 ≤ (n : ℤ) * (m / (n : ℤ)) + n)
    _ = (((m / (n : ℤ) : ℤ) : ℚ) + 1) * (n : ℚ) := by push_cast; ring

lemma pyFloorDiv_eq_floor (x : ℚ) (n : ℕ) :
    pyFloorDiv x n = ⌊x / (n : ℚ)⌋ := by
  have hx : x / (n : ℚ) = (x.num : ℚ) / ((x.den * n : ℕ) : ℚ) := by
    conv_lhs => rw [← Rat.num_div_den x]
    push_cast
    rw [div_div]
  rw [pyFloorDiv, hx, Rat.floor_intCast_div_natCast]

lemma pyMod_eq (x : ℚ) (n : ℕ) :
    pyMod x n = x - (n : ℚ) * ((pyFloorDiv x n : ℤ) : ℚ) := by
  have hd : ((x.den : ℤ) : ℚ) ≠ 0 := by
    exact_mod_cast (Nat.cast_ne_zero (R := ℚ)).2 x.den_nz
  have hd' : ((x.den : ℕ) : ℚ) ≠ 0 := (Nat.cast_ne_zero (R := ℚ)).2 x.den_nz
  have hnum : (x.num : ℚ) = x * (x.den : ℚ) := by
    have h := Rat.num_div_den x
    rw [div_eq_iff hd'] at h
    exact h
  rw [pyMod, Rat.divInt_eq_div]
  push_cast
  field_simp
  rw [hnum]
  ring

lemma pyMod_nonneg (x : ℚ) (n : ℕ) (hn : 0 < n) : 0 ≤ pyMod x n := by
  rw [pyMod_eq, pyFloorDiv_eq_floor x n]
  have hn0 : (0 : ℚ) < (n : ℚ) := by exact_mod_cast hn
  have h1 : ((⌊x / (n : ℚ)⌋ : ℤ) : ℚ) ≤ x / (n : ℚ) := Int.floor_le _
  have h2 : (n : ℚ) * ((⌊x / (n : ℚ)⌋ : ℤ) : ℚ) ≤ (n : ℚ) * (x / (n : ℚ)) :=
    mul_le_mul_of_nonneg_left h1 (le_of_lt hn0)
  have h3 : (n : ℚ) * (x / (n : ℚ)) = x := by field_simp
  linarith

/-- The decomposition performed by `format_timestamp` agrees with flooring to
whole seconds first and decomposing the integer (with euclidean `/` and `%`,
which coincide with floor-division here). -/
lemma format_timestamp_eq_intClock (q : ℚ) :
    format_timestamp q = intClock ⌊q⌋ := by
  have h3600 : (0:ℕ) < 3600 := by norm_num
  have h60 : (0:ℕ) < 60 := by norm_num
  have hH : pyFloorDiv q 3600 = ⌊q⌋ / 3600 := by
    rw [pyFloorDiv_eq_floor q 3600, floor_div_natCast q 3600 h3600]
    norm_num
  have hMod3600 : pyMod q 3600 = q - ((3600 * (⌊q⌋ / 3600) : ℤ) : ℚ) := by
    rw [pyMod_eq, pyFloorDiv_eq_floor q 3600, floor_div_natCast q 3600 h3600]
    push_cast
    ring
  have hM : pyFloorDiv (pyMod q 3600) 60 = ⌊q⌋ % 3600 / 60 := by
    rw [pyFloorDiv_eq_floor _ 60, hMod3600]
    have hrw : (q - ((3600 * (⌊q⌋ / 3600) : ℤ) : ℚ)) / ((60 : ℕ) : ℚ) =
        q / ((60 : ℕ) : ℚ) - (((60 * (⌊q⌋ / 3600) : ℤ) : ℚ)) := by
      push_cast
      ring
    rw [hrw, Int.floor_sub_int, floor_div_natCast q 60 h60]
    omega
  have hMod60 : pyMod q 60 = q - ((60 * (⌊q⌋ / 60) : ℤ) : ℚ) := by
    rw [pyMod_eq, pyFloorDiv_eq_floor q 60, floor_div_natCast q 60 h60]
    push_cast
    ring
  have hS : pyInt (pyMod q 60) = ⌊q⌋ % 60 := by
    have hnn : 0 ≤ pyMod q 60 := pyMod_nonneg q 60 h60
    rw [pyInt_eq_floor _ hnn, hMod60, Int.floor_sub_int]
    omega
  rw [format_timestamp, intClock, hH, hM, hS]


/-!
## Resolver lemmas: the scan agrees with the declarative pattern reading
-/

lemma tryBodyWith_eq_some (bnd : List Char → Bool) (l g : List Char) :
    tryBodyWith bnd l = some g ↔
      g.length = 11 ∧ (∀ c ∈ g, isIdChar c = true) ∧
        ∃ rest, l = g ++ rest ∧ bnd rest = true := by
  constructor
  · intro hsome
    rw [tryBodyWith] at hsome
    split_ifs at hsome with hcond
    have hg : g = l.take 11 := (Option.some.inj hsome).symm
    rw [Bool.and_eq_true, Bool.and_eq_true] at hcond
    obtain ⟨⟨hlen, hall⟩, hbnd⟩ := hcond
    subst hg
    have hlen' : (l.take 11).length = 11 := by simpa using hlen
    have hall' : ∀ c ∈ l.take 11, isIdChar c = true := by
      intro c hc
      exact List.all_eq_true.1 hall c hc
    exact ⟨hlen', hall', l.drop 11, (List.take_append_drop 11 l).symm, hbnd⟩
  · rintro ⟨hlen, hall, rest, rfl, hbnd⟩
    have htake : (g ++ rest).take 11 = g := List.take_left' hlen
    have hdrop : (g ++ rest).drop 11 = rest := List.drop_left' hlen
    have hcond : (((g ++ rest).take 11).length == 11 && ((g ++ rest).take 11).all isIdChar &&
        bnd ((g ++ rest).drop 11)) = true := by
      rw [htake, hdrop]
      simp [hlen, hbnd, List.all_eq_true.2 hall]
    rw [tryBodyWith, if_pos hcond, htake]

lemma tryAtWith_eq_some (bnd : List Char → Bool) (l g : List Char) :
    tryAtWith bnd l = some g ↔ declMatchAt bnd l g := by
  rw [tryAtWith, declMatchAt]
  by_cases h1 : ['v', '='].isPrefixOf l
  · obtain ⟨t, rfl⟩ : ∃ t, l = 'v' :: '=' :: t := by
      obtain ⟨s, hs⟩ := List.isPrefixOf_iff_prefix.1 h1
      exact ⟨s, hs.symm⟩
    rw [if_pos h1]
    have hdrop2 : ('v' :: '=' :: t).drop 2 = t := rfl
    rw [hdrop2, tryBodyWith_eq_some]
    constructor
    · rintro ⟨hlen, hall, rest, rfl, hbnd⟩
      exact ⟨hlen, hall, Or.inl ⟨rest, rfl, hbnd⟩⟩
    · rintro ⟨hlen, hall, ⟨rest, heq, hbnd⟩ | ⟨rest, heq, hbnd⟩⟩
      · obtain ⟨-, -, ht⟩ : 'v' = 'v' ∧ '=' = '=' ∧ t = g ++ rest := by
          simpa using heq
        exact ⟨hlen, hall, rest, ht, hbnd⟩
      · exact absurd heq (by simp)
  · by_cases h2 : ['/'].isPrefixOf l
    · obtain ⟨t, rfl⟩ : ∃ t, l = '/' :: t := by
        obtain ⟨s, hs⟩ := List.isPrefixOf_iff_prefix.1 h2
        exact ⟨s, hs.symm⟩
      rw [if_neg h1, if_pos h2]
      have hdrop1 : ('/' :: t).drop 1 = t := rfl
      rw [hdrop1, tryBodyWith_eq_some]
      constructor
      · rintro ⟨hlen, hall, rest, rfl, hbnd⟩
        exact ⟨hlen, hall, Or.inr ⟨rest, rfl, hbnd⟩⟩
      · rintro ⟨hlen, hall, ⟨rest, heq, hbnd⟩ | ⟨rest, heq, hbnd⟩⟩
        · exact absurd heq (by simp)
        · obtain ⟨-, ht⟩ : '/' = '/' ∧ t = g ++ rest := by
            simpa using heq
          exact ⟨hlen, hall, rest, ht, hbnd⟩
    · rw [if_neg h1, if_neg h2]
      constructor
      · intro h
        exact absurd h (by simp)
      · rintro ⟨hlen, hall, ⟨rest, rfl, hbnd⟩ | ⟨rest, rfl, hbnd⟩⟩
        · exact absurd (by simp : (['v', '='].isPrefixOf
            ('v' :: '=' :: (g ++ rest))) = true) h1
        · exact absurd (by simp : (['/'].isPrefixOf ('/' :: (g ++ rest))) = true) h2

lemma findMatchWith_eq_none (bnd : List Char → Bool) (l : List Char) :
    findMatchWith bnd l = none ↔ ∀ i, tryAtWith bnd (l.drop i) = none := by
  induction l with
  | nil =>
    constructor
    · intro _ i
      rw [List.drop_nil]
      rfl
    · intro _
      rfl
  | cons c rest ih =>
    cases htry : tryAtWith bnd (c :: rest) with
    | some g =>
      rw [findMatchWith, htry]
      constructor
      · intro h
        exact absurd h (by simp)
      · intro h
        have := h 0
        rw [List.drop_zero, htry] at this
        exact absurd this (by simp)
    | none =>
      rw [findMatchWith, htry, ih]
      constructor
      · intro h i
        cases i with
        | zero =>
          rw [List.drop_zero]
          exact htry
        | succ j =>
          exact h j
      · intro h j
        exact h (j + 1)

lemma findMatchWith_eq_some (bnd : List Char → Bool) (l g : List Char)
    (h : findMatchWith bnd l = some g) : ∃ i, tryAtWith bnd (l.drop i) = some g := by
  induction l with
  | nil => exact absurd h (by simp [findMatchWith])
  | cons c rest ih =>
    cases htry : tryAtWith bnd (c :: rest) with
    | some g0 =>
      simp only [findMatchWith, htry] at h
      exact ⟨0, by rw [List.drop_zero, htry, h]⟩
    | none =>
      simp only [findMatchWith, htry] at h
      obtain ⟨i, hi⟩ := ih h
      exact ⟨i + 1, hi⟩

/-!
## Transcript assembler lemmas
-/

lemma entryLines_translate (base_url : String) (tr : String → Except Unit String)
    (e : TranscriptEntry) :
    entryLines base_url true tr e =
      [timestampLink base_url e ++ " " ++ e.text,
       timestampLink base_url e ++ " (한글 번역) " ++ translationTail (tr e.text)] := by
  cases htr : tr e.text with
  | ok translated => simp [entryLines, htr, translationTail]
  | error u =>
    simp only [entryLines, htr, translationTail, if_true]
    have hlit : (" (한글 번역) " : String) ++ "오류 발생" = " (한글 번역) 오류 발생" := rfl
    rw [String.append_assoc (timestampLink base_url e) " (한글 번역) " "오류 발생", hlit]

lemma transcriptLines_translate_length (base_url : String)
    (tr : ℕ → String → Except Unit String) (es : List TranscriptEntry) : ∀ n : ℕ,
    (transcriptLines base_url true tr n es).length = 2 * es.length := by
  induction es with
  | nil => intro n; rfl
  | cons e es ih =>
    intro n
    rw [transcriptLines, entryLines_translate, List.length_append, ih (n + 1)]
    simp [List.length_cons]
    ring

lemma transcriptLines_translate_getElem (base_url : String)
    (tr : ℕ → String → Except Unit String) : ∀ (es : List TranscriptEntry) (n i : ℕ)
    (hi : i < es.length),
    (transcriptLines base_url true tr n es)[2 * i]? =
      some (timestampLink base_url es[i] ++ " " ++ (es[i]).text) ∧
    (transcriptLines base_url true tr n es)[2 * i + 1]? =
      some (timestampLink base_url es[i] ++ " (한글 번역) " ++
        translationTail (tr (n + i) (es[i]).text)) := by
  intro es
  induction es with
  | nil =>
    intro n i hi
    exact absurd hi (by simp)
  | cons e es ih =>
    intro n i hi
    rw [transcriptLines, entryLines_translate]
    cases i with
    | zero =>
      constructor
      · simp
      · simp
    | succ j =>
      have hj : j < es.length := by simpa using hi
      have hrec := ih (n + 1) j hj
      have hidx1 : 2 * (j + 1) = 2 * j + 1 + 1 := by ring
      have hidx2 : 2 * (j + 1) + 1 = 2 * j + 1 + 1 + 1 := by ring
      have hn : n + 1 + j = n + (j + 1) := by ring
      constructor
      · rw [hidx1]
        simp only [List.cons_append, List.nil_append, List.getElem?_cons_succ,
          List.getElem_cons_succ]
        exact hrec.1
      · rw [hidx2]
        simp only [List.cons_append, List.nil_append, List.getElem?_cons_succ,
          List.getElem_cons_succ]
        rw [← hn]
        exact hrec.2

/-!
## Metadata fallback chain lemmas
-/

lemma apiFallback_result_none (video_id : String) (api_key : Option String)
    (secondary : Except Unit (List ApiItem))
    (hs : secondaryUnavailable api_key secondary = true) :
    (apiFallback video_id api_key secondary).result = none := by
  cases api_key with
  | none => rfl
  | some k =>
    cases secondary with
    | error u => rfl
    | ok items =>
      cases items with
      | nil => rfl
      | cons a as =>
        rw [secondaryUnavailable] at hs
        exact absurd hs (by simp)

lemma get_video_metadata_none (video_id : String) (primary : Except Unit (String × String))
    (api_key : Option String) (secondary : Except Unit (List ApiItem))
    (hp : primaryFailed primary = true)
    (hs : secondaryUnavailable api_key secondary = true) :
    (get_video_metadata video_id primary api_key secondary).result = none := by
  cases primary with
  | error u =>
    rw [get_video_metadata]
    exact apiFallback_result_none video_id api_key secondary hs
  | ok tc =>
    obtain ⟨t, c⟩ := tc
    have ht : t = "" := by simpa [primaryFailed] using hp
    rw [get_video_metadata, if_pos ht]
    exact apiFallback_result_none video_id api_key secondary hs

lemma removeForbidden_eq_filter (l : List Char) :
    removeForbidden l = l.filter (fun ch => !forbiddenChar ch) := by
  induction l with
  | nil => rfl
  | cons c rest ih =>
    rw [removeForbidden, List.filter_cons]
    by_cases h : forbiddenChar c
    · rw [if_pos h, ih]
      simp [h]
    · rw [if_neg h, ih]
      simp [h]

/-!
## Claim theorems
-/

/-- C1 counterexample: the claim says transcript assembly fails (fatally)
whenever the provider yields no entries; on the code, a provider that yields
no entries makes `get_transcript` return successfully with the empty string —
no exception is raised. -/
theorem c1_transcript_unavailable_counterexample :
    get_transcript (Except.ok []) "dQw4w9WgXcQ" true errTranslator = Except.ok "" := by
  decide

/-- C1 (amended): a provider exception propagates out of `get_transcript` and
aborts the run before any file is written; a provider that yields no entries
does not make assembly fail — it yields an empty transcript, and the driver
then skips writing.  In both cases no report is produced and no file is
written. -/
theorem c1_transcript_unavailable_amended (raw : String) (translate : Bool)
    (primary : Except Unit (String × String)) (api_key : Option String)
    (secondary : Except Unit (List ApiItem)) (translator : ℕ → String → Except Unit String)
    (time_str : String) (e : String) (vid : String) (hraw : raw ≠ "") :
    get_transcript (Except.error e) vid translate translator = Except.error e ∧
    pyMain raw translate primary api_key secondary (Except.error e) translator time_str =
      Except.error e ∧
    get_transcript (Except.ok []) vid translate translator = Except.ok "" ∧
    pyMain raw translate primary api_key secondary (Except.ok []) translator time_str =
      Except.ok ⟨none, none⟩ := by
  refine ⟨rfl, ?_, rfl, ?_⟩
  · rw [pyMain, if_neg hraw]
    rfl
  · rw [pyMain, if_neg hraw]
    rfl

/-- C1 witness: a concrete raising provider aborts the run with no write, and a
concrete empty transcript list produces a run with no write. -/
theorem c1_transcript_unavailable_witness :
    pyMain "dQw4w9WgXcQ" false (Except.ok ("My Video", "My Channel")) none (Except.ok [])
        (Except.error "no transcript") okTranslator "20260101_000000" =
      Except.error "no transcript" ∧
    pyMain "dQw4w9WgXcQ" false (Except.ok ("My Video", "My Channel")) none (Except.ok [])
        (Except.ok []) okTranslator "20260101_000000" = Except.ok ⟨none, none⟩ := by
  have h := c1_transcript_unavailable_amended "dQw4w9WgXcQ" false
    (Except.ok ("My Video", "My Channel")) none (Except.ok []) okTranslator "20260101_000000"
    "no transcript" "dQw4w9WgXcQ" (by decide)
  exact ⟨h.2.1, h.2.2.2⟩

/-- C2: on a successful run (transcript assembled, file written) the driver
`main` returns `None` — it discards the file name that `save_to_markdown`
returned to it, so the caller never receives the written filename. -/
theorem c2_driver_discards_filename :
    pyMain "dQw4w9WgXcQ" false (Except.ok ("My Video", "My Channel")) none (Except.ok [])
        (Except.ok sampleEntries) okTranslator "20260101_000000" =
      Except.ok ⟨some sampleSaved, none⟩ ∧
    sampleSaved.1 = "20260101_000000_My Video.md" := by
  constructor
  · decide
  · decide

/-- C3: with translation enabled and a translator that fails exactly on entry
`k`, assembly still succeeds, produces `2 * N` lines in temporal order, pairs
each entry's original line with a second line carrying the same link, and puts
the fixed error placeholder on entry `k`'s second line and the genuine
translation on every other. -/
theorem c3_translation_partial_failure (video_id : String)
    (translator : ℕ → String → Except Unit String) (es : List TranscriptEntry)
    (genuine : ℕ → String) (k : ℕ) (hk : k < es.length)
    (hfail : translator k ((es[k]).text) = Except.error ())
    (hok : ∀ i (hi : i < es.length), i ≠ k →
      translator i ((es[i]).text) = Except.ok (genuine i)) :
    get_transcript (Except.ok es) video_id true translator =
      Except.ok (String.intercalate "\n"
        (transcriptLines (watchUrl video_id) true translator 0 es)) ∧
    (transcriptLines (watchUrl video_id) true translator 0 es).length = 2 * es.length ∧
    ∀ i (hi : i < es.length),
      (transcriptLines (watchUrl video_id) true translator 0 es)[2 * i]? =
        some (timestampLink (watchUrl video_id) es[i] ++ " " ++ (es[i]).text) ∧
      (transcriptLines (watchUrl video_id) true translator 0 es)[2 * i + 1]? =
        some (timestampLink (watchUrl video_id) es[i] ++ " (한글 번역) " ++
          (if i = k then "오류 발생" else genuine i)) := by
  refine ⟨rfl, transcriptLines_translate_length _ _ _ 0, ?_⟩
  intro i hi
  have h := transcriptLines_translate_getElem (watchUrl video_id) translator es 0 i hi
  refine ⟨h.1, ?_⟩
  rw [h.2]
  by_cases hik : i = k
  · subst hik
    have htail : translationTail (translator (0 + i) ((es[i]).text)) = "오류 발생" := by
      rw [Nat.zero_add, hfail]
      rfl
    rw [htail, if_pos rfl]
  · have htail : translationTail (translator (0 + i) ((es[i]).text)) = genuine i := by
      rw [Nat.zero_add, hok i hi hik]
      rfl
    rw [htail, if_neg hik]

/-- C3 witness: on a concrete two-entry transcript whose translator fails on
its second call only, the assembled list has 4 lines and the fourth is the
placeholder line of the second entry. -/
theorem c3_translation_partial_failure_witness :
    (transcriptLines (watchUrl "dQw4w9WgXcQ") true failSecondTranslator 0 sampleEntries).length
        = 4 ∧
    (transcriptLines (watchUrl "dQw4w9WgXcQ") true failSecondTranslator 0 sampleEntries)[3]? =
      some "[00:00:03](https://www.youtube.com/watch?v=dQw4w9WgXcQ&t=3s) (한글 번역) 오류 발생" := by
  have h := c3_translation_partial_failure "dQw4w9WgXcQ" failSecondTranslator sampleEntries
    (fun _ => "좋아") 1 (by decide) (by decide) (by decide)
  refine ⟨h.2.1, ?_⟩
  exact ((h.2.2 1 (by decide)).2).trans (by decide)

/-- C4: if the scraping provider returns a non-empty title, the fallback chain
returns exactly that title and channel (with the canonical URL) and the
structured API provider is never consulted; and whenever the structured API
provider is consulted, the primary attempt had failed and a credential was
present. -/
theorem c4_metadata_short_circuit (video_id t c : String)
    (p : Except Unit (String × String)) (api_key : Option String)
    (secondary : Except Unit (List ApiItem)) (ht : t ≠ "") :
    get_video_metadata video_id (Except.ok (t, c)) api_key secondary =
      ⟨some ⟨t, c, watchUrl video_id⟩, false⟩ ∧
    ((get_video_metadata video_id p api_key secondary).apiConsulted = true →
      primaryFailed p = true ∧ api_key.isSome = true) := by
  constructor
  · rw [get_video_metadata, if_neg ht]
  · intro hcons
    cases p with
    | error u =>
      refine ⟨rfl, ?_⟩
      rw [get_video_metadata] at hcons
      cases api_key with
      | none => exact absurd hcons (by simp [apiFallback])
      | some kk => rfl
    | ok tc0 =>
      obtain ⟨t0, c0⟩ := tc0
      by_cases ht0 : t0 = ""
      · subst ht0
        refine ⟨by simp [primaryFailed], ?_⟩
        rw [get_video_metadata, if_pos rfl] at hcons
        cases api_key with
        | none => exact absurd hcons (by simp [apiFallback])
        | some kk => rfl
      · rw [get_video_metadata, if_neg ht0] at hcons
        exact absurd hcons (by simp)

/-- C4 witness: with a credential present and a populated API response, a
successful scrape still short-circuits the chain. -/
theorem c4_metadata_short_circuit_witness :
    get_video_metadata "dQw4w9WgXcQ" (Except.ok ("My Video", "My Channel")) (some "KEY")
        (Except.ok [⟨"Api Title", "Api Channel"⟩]) =
      ⟨some ⟨"My Video", "My Channel", "https://www.youtube.com/watch?v=dQw4w9WgXcQ"⟩,
        false⟩ := by
  have h := (c4_metadata_short_circuit "dQw4w9WgXcQ" "My Video" "My Channel"
    (Except.ok ("My Video", "My Channel")) (some "KEY")
    (Except.ok [⟨"Api Title", "Api Channel"⟩]) (by decide)).1
  exact h.trans (by decide)

/-- C5: when the primary attempt fails and the secondary is unavailable, the
metadata fetch returns `None`, and any file a run then writes is exactly a
`save_to_markdown` of the synthetic default record
`{title = identifier, channel = "Unknown", url = canonical watch URL}` —
the default is substituted wholesale, never merged. -/
theorem c5_default_metadata_substitution (raw : String) (translate : Bool)
    (primary : Except Unit (String × String)) (api_key : Option String)
    (secondary : Except Unit (List ApiItem)) (provider : Except String (List TranscriptEntry))
    (translator : ℕ → String → Except Unit String) (time_str : String) (r : RunResult)
    (fc : String × String)
    (hp : primaryFailed primary = true)
    (hs : secondaryUnavailable api_key secondary = true)
    (hrun : pyMain raw translate primary api_key secondary provider translator time_str =
      Except.ok r)
    (hw : r.written = some fc) :
    (get_video_metadata (extract_video_id raw) primary api_key secondary).result = none ∧
    ∃ body, fc = save_to_markdown time_str
      ⟨extract_video_id raw, "Unknown", watchUrl (extract_video_id raw)⟩ body := by
  have hnone := get_video_metadata_none (extract_video_id raw) primary api_key secondary hp hs
  refine ⟨hnone, ?_⟩
  by_cases hraw : raw = ""
  · rw [pyMain, if_pos hraw] at hrun
    have hr := Except.ok.inj hrun
    rw [← hr] at hw
    exact absurd hw (by simp)
  · rw [pyMain, if_neg hraw] at hrun
    cases htr : get_transcript provider (extract_video_id raw) translate translator with
    | error e =>
      simp only [htr] at hrun
      exact absurd hrun (by simp)
    | ok transcript =>
      simp only [htr] at hrun
      by_cases htre : transcript = ""
      · rw [if_pos htre] at hrun
        have hr := Except.ok.inj hrun
        rw [← hr] at hw
        exact absurd hw (by simp)
      · rw [if_neg htre] at hrun
        have hr := Except.ok.inj hrun
        rw [← hr] at hw
        have hfc : fc = save_to_markdown time_str
            (((get_video_metadata (extract_video_id raw) primary api_key
              secondary).result).getD (defaultMetadata (extract_video_id raw))) transcript :=
          (Option.some.inj hw).symm
        refine ⟨transcript, ?_⟩
        rw [hfc, hnone]
        rfl

/-- C5 witness: a concrete run whose providers all fail writes the synthetic
default document, and the metadata fetch indeed returned `None`. -/
theorem c5_default_metadata_substitution_witness :
    (get_video_metadata (extract_video_id "dQw4w9WgXcQ") (Except.error ()) none
      (Except.ok [])).result = none := by
  have h := c5_default_metadata_substitution "dQw4w9WgXcQ" false (Except.error ()) none
    (Except.ok []) (Except.ok sampleEntries) okTranslator "20260101_000000"
    ⟨some sampleDefaultSaved, none⟩ sampleDefaultSaved (by decide) (by decide) (by decide)
    (by decide)
  exact h.1

/-- C6: the report writer produces exactly the specified document layout (the
code's sequence of writes equals the spec's newline-joined layout), under the
filename `<time>_<sanitized title>.md`, where sanitization removes exactly the
forbidden characters; the filename is what the writer returns. -/
theorem c6_report_layout (time_str : String) (metadata : VideoMetadata) (transcript : String) :
    save_to_markdown time_str metadata transcript =
      (time_str ++ "_" ++ sanitize_filename metadata.title ++ ".md",
        specDocument metadata transcript) ∧
    (sanitize_filename metadata.title).data =
      metadata.title.data.filter (fun ch => !forbiddenChar ch) := by
  constructor
  · have hcontent :
        ("# " ++ metadata.title ++ "\n\n") ++
        ("**채널명:** " ++ metadata.channel ++ "\n\n") ++
        ("**URL:** " ++ metadata.url ++ "\n\n") ++
        "---\n\n" ++
        "## 트랜스크립트\n\n" ++
        transcript = specDocument metadata transcript := by
      rw [specDocument]
      apply String.ext
      simp only [joinLines, String.data_append, List.append_assoc, List.nil_append,
        List.cons_append, List.singleton_append]
    rw [save_to_markdown, hcontent]
  · rw [sanitize_filename]
    exact removeForbidden_eq_filter metadata.title.data

/-- C7 counterexample: the input `"v=abcdefghijk\n"` is not matched by the
pattern as the claim describes it (token followed by `?`, `&`, `/`, or
end-of-string — a trailing newline is none of these), yet the code does not
return the input unchanged: Python's `$` also matches before a newline that
ends the string, so the resolver returns the captured token. -/
theorem c7_resolver_counterexample :
    findMatchWith claimBoundary ("v=abcdefghijk\n".data) = none ∧
    extract_video_id "v=abcdefghijk\n" = "abcdefghijk" ∧
    extract_video_id "v=abcdefghijk\n" ≠ "v=abcdefghijk\n" := by
  refine ⟨by decide, by decide, by decide⟩

/-- C7 (amended): with the boundary also allowing a newline that ends the
string (Python `$`), the resolver returns the input unchanged exactly when no
position matches the declarative pattern, and on a match returns the captured
11-character group of the class. -/
theorem c7_resolver_amended (s : String) :
    ((∀ i g, ¬ declMatchAt boundaryOk (s.data.drop i) g) → extract_video_id s = s) ∧
    (∀ g, findMatchWith boundaryOk s.data = some g →
      extract_video_id s = String.mk g ∧ ∃ i, declMatchAt boundaryOk (s.data.drop i) g) := by
  constructor
  · intro h
    have hnone : findMatchWith boundaryOk s.data = none := by
      rw [findMatchWith_eq_none]
      intro i
      cases htry : tryAtWith boundaryOk (s.data.drop i) with
      | none => rfl
      | some g => exact absurd ((tryAtWith_eq_some _ _ _).1 htry) (h i g)
    rw [extract_video_id, hnone]
  · intro g hg
    constructor
    · rw [extract_video_id, hg]
    · obtain ⟨i, hi⟩ := findMatchWith_eq_some _ _ _ hg
      exact ⟨i, (tryAtWith_eq_some _ _ _).1 hi⟩

/-- C7 witness: the resolver extracts the identifier from a concrete watch
URL, through the amended characterisation. -/
theorem c7_resolver_amended_witness :
    extract_video_id "https://www.youtube.com/watch?v=dQw4w9WgXcQ" = "dQw4w9WgXcQ" := by
  have h := (c7_resolver_amended "https://www.youtube.com/watch?v=dQw4w9WgXcQ").2
    ("dQw4w9WgXcQ".data) (by decide)
  exact h.1.trans (by decide)

/-- C8: the timestamp formatter truncates (never rounds) a non-negative number
of seconds to whole seconds before decomposing — formatting `q` equals
formatting the truncation of `q` — and the three sample points of the spec
evaluate as stated. -/
theorem c8_timestamp_truncation (q : ℚ) (hq : 0 ≤ q) :
    format_timestamp q = format_timestamp ((pyInt q : ℤ) : ℚ) ∧
    format_timestamp 0 = "00:00:00" ∧
    format_timestamp 3661 = "01:01:01" ∧
    format_timestamp (599 / 10) = "00:00:59" := by
  refine ⟨?_, ?_, ?_, ?_⟩
  · rw [format_timestamp_eq_intClock q, format_timestamp_eq_intClock ((pyInt q : ℤ) : ℚ),
      pyInt_eq_floor q hq, Int.floor_intCast]
  · rw [format_timestamp_eq_intClock, show ⌊(0 : ℚ)⌋ = 0 from by norm_num]
    decide
  · rw [format_timestamp_eq_intClock, show ⌊(3661 : ℚ)⌋ = 3661 from by norm_num]
    decide
  · rw [format_timestamp_eq_intClock, show ⌊(599 / 10 : ℚ)⌋ = 59 from by norm_num]
    decide

/-- C8 witness: the truncation identity applied at `59.9`. -/
theorem c8_timestamp_truncation_witness :
    format_timestamp (599 / 10) = format_timestamp ((pyInt (599 / 10) : ℤ) : ℚ) :=
  (c8_timestamp_truncation (599 / 10) (by norm_num)).1

/-- C9: whichever provider supplies title and channel, the `url` field of a
returned metadata record is always the canonical watch URL synthesized from
the identifier, never a provider value. -/
theorem c9_metadata_url_canonical (video_id : String) (primary : Except Unit (String × String))
    (api_key : Option String) (secondary : Except Unit (List ApiItem)) (m : VideoMetadata)
    (h : (get_video_metadata video_id primary api_key secondary).result = some m) :
    m.url = watchUrl video_id := by
  have hapi : (apiFallback video_id api_key secondary).result = some m →
      m.url = watchUrl video_id := by
    intro hm
    cases api_key with
    | none => exact absurd hm (by simp [apiFallback])
    | some kk =>
      cases secondary with
      | error u => exact absurd hm (by simp [apiFallback])
      | ok items =>
        cases items with
        | nil => exact absurd hm (by simp [apiFallback])
        | cons item rest =>
          rw [apiFallback] at hm
          have hm' := Option.some.inj hm
          rw [← hm']
  cases primary with
  | error u =>
    rw [get_video_metadata] at h
    exact hapi h
  | ok tc =>
    obtain ⟨t, c⟩ := tc
    by_cases ht : t = ""
    · rw [get_video_metadata, if_pos ht] at h
      exact hapi h
    · rw [get_video_metadata, if_neg ht] at h
      have hm' := Option.some.inj h
      rw [← hm']

/-- C9 witness: the canonical URL on the structured-API path, at a concrete
input. -/
theorem c9_metadata_url_canonical_witness :
    (⟨"Api Title", "Api Channel", "https://www.youtube.com/watch?v=dQw4w9WgXcQ"⟩ :
      VideoMetadata).url = watchUrl "dQw4w9WgXcQ" :=
  c9_metadata_url_canonical "dQw4w9WgXcQ" (Except.error ()) (some "KEY")
    (Except.ok [⟨"Api Title", "Api Channel"⟩])
    ⟨"Api Title", "Api Channel", "https://www.youtube.com/watch?v=dQw4w9WgXcQ"⟩ (by decide)

/-- C10: with translation requested, an entry's two lines begin with the same
timestamp link; the integer in the link's `&t=...s` fragment is the truncation
of the entry's start offset, and the same truncation determines the `HH:MM:SS`
label. -/
theorem c10_deep_link_consistency (base_url : String) (tr : String → Except Unit String)
    (e : TranscriptEntry) (h : 0 ≤ e.start) :
    (∃ tail, entryLines base_url true tr e =
      [timestampLink base_url e ++ " " ++ e.text,
       timestampLink base_url e ++ " (한글 번역) " ++ tail]) ∧
    timestampLink base_url e =
      "[" ++ intClock (pyInt e.start) ++ "](" ++ base_url ++ "&t=" ++
        toString (pyInt e.start) ++ "s)" ∧
    pyInt e.start = ⌊e.start⌋ := by
  refine ⟨⟨translationTail (tr e.text), entryLines_translate base_url tr e⟩, ?_,
    pyInt_eq_floor e.start h⟩
  rw [timestampLink, format_timestamp_eq_intClock, pyInt_eq_floor e.start h]

/-- C10 witness: the link of a concrete entry with offset `3.5` seconds. -/
theorem c10_deep_link_consistency_witness :
    timestampLink (watchUrl "dQw4w9WgXcQ") ⟨mkRat 7 2, "world"⟩ =
      "[00:00:03](https://www.youtube.com/watch?v=dQw4w9WgXcQ&t=3s)" := by
  have h := (c10_deep_link_consistency (watchUrl "dQw4w9WgXcQ") (fun _ => Except.error ())
    ⟨mkRat 7 2, "world"⟩ (by decide)).2.1
  exact h.trans (by decide)
